import Mathlib

/-!
Verification development for the Zedkr monetized proxy gateway.

The definitions below are a shallow embedding of the TypeScript source:
  * `src/routes/proxy.ts`   — endpoint resolution, payment challenge, reverse
    proxy forwarding, call ledger writes;
  * `src/routes/x402scan.ts` — schema publisher (discovery) route.

Machine numbers are modelled as `Nat` (the quantities involved — micro-STX
prices, HTTP status codes, latencies — are non-negative and far below any
overflow boundary).  Fallible steps return `Option`.  External collaborators
(the persistent store, the x402 payment library) are modelled at their call
boundary: store lookups and writes are explicit values passed in and out.
-/

namespace Zedkr

/-! ## Decimal rendering of prices (src/routes/proxy.ts line 78)

The source computes
  `(parseInt(endpoint.price_microstx) / 1000000).toFixed(6).replace(/\.?0+$/, '')`.
We embed the arithmetic exactly over `Nat`: for `p` below about `4.5e15`
the JavaScript double computation `p / 1e6` followed by `toFixed(6)` is
exact (the nearest double is within half of `1e-6` of the rational value and
the rational value is never a rounding midpoint), so `toFixed(6)` renders
precisely the decimal expansion of `p / 10^6` with six fraction digits. -/

/-- One decimal digit as a character; digits ≥ 10 never arise. -/
def digitChar (d : Nat) : Char :=
  if d = 0 then '0' else if d = 1 then '1' else if d = 2 then '2'
  else if d = 3 then '3' else if d = 4 then '4' else if d = 5 then '5'
  else if d = 6 then '6' else if d = 7 then '7' else if d = 8 then '8'
  else if d = 9 then '9' else '*'

/-- Decimal rendering, fuel-based so that it reduces inside the kernel;
`fuel = n + 1` always suffices since a number has at most `n + 1` digits. -/
def natCharsGo : Nat → Nat → List Char
  | 0, _ => []
  | fuel + 1, n =>
    if n < 10 then [digitChar n]
    else natCharsGo fuel (n / 10) ++ [digitChar (n % 10)]

/-- Decimal rendering of a natural number (the JS `Number.prototype.toString`
for integral values). -/
def natChars (n : Nat) : List Char := natCharsGo (n + 1) n

/-- Decimal string of a natural number. -/
def natStr (n : Nat) : String := String.mk (natChars n)

/-- The six fraction digits of `m / 10^6` (zero padded), as `toFixed(6)`
renders them for the fractional part. -/
def pad6 (m : Nat) : List Char :=
  [digitChar (m / 100000 % 10), digitChar (m / 10000 % 10),
   digitChar (m / 1000 % 10), digitChar (m / 100 % 10),
   digitChar (m / 10 % 10), digitChar (m % 10)]

/-- `(p / 1e6).toFixed(6)` as a character list: whole part, dot, six
fraction digits. -/
def toFixed6 (p : Nat) : List Char :=
  natChars (p / 1000000) ++ '.' :: pad6 (p % 1000000)

/-- The semantics of `.replace(/\.?0+$/, '')`: if the string ends in `'0'`,
remove the maximal run of trailing zeros together with a directly preceding
dot (the regex' leftmost match); otherwise the string is unchanged. -/
def stripPriceZeros (s : List Char) : List Char :=
  if s.getLast? = some '0' then
    let r := (s.reverse.dropWhile (· == '0')).reverse
    if r.getLast? = some '.' then r.dropLast else r
  else s

/-- `priceSTX` from src/routes/proxy.ts line 78: the human-readable STX
amount displayed for `price_microstx = p`. -/
def fmtSTX (p : Nat) : String :=
  String.mk (stripPriceZeros (toFixed6 p))

/-- Spec-side rendering: remove the trailing zeros of a digit list
(structural recursion from the end). -/
def dropTrailingZeros : List Char → List Char
  | [] => []
  | c :: cs =>
    match dropTrailingZeros cs with
    | [] => if c = '0' then [] else [c]
    | r => c :: r

/-- Spec-side rendering of the displayed STX amount: the decimal string of
`p / 1_000_000` with the fraction trimmed of trailing zeros (and the dot
dropped when the fraction vanishes). -/
def stxTrimmed (p : Nat) : String :=
  if p % 1000000 = 0 then natStr (p / 1000000)
  else String.mk (natChars (p / 1000000) ++ '.' :: dropTrailingZeros (pad6 (p % 1000000)))

/-! ## Endpoint resolution (src/routes/proxy.ts lines 19–63 and
src/routes/x402scan.ts lines 29–60)

The store lookup (`supabase...select(...).eq(...).single()`) is an external
collaborator: it joins user → api → endpoint filtered by username, api
slug, endpoint path and `active = true`, and either yields the single
matching row, yields no row, or fails (database or network error).  The
supabase client reports every failure as an `error` value in its result
object rather than throwing, so the lookup boundary is the sum type below.
Columns the queries do not null-filter (`wallet_address`, `original_url`,
`monetized_url`, names) are `Option`s: a row carrying nulls there is still
returned. -/

structure EndpointRow where
  id : Nat
  endpointName : Option String
  endpointPath : String
  originalUrl : Option String
  priceMicrostx : Nat
  walletAddress : Option String
  monetizedUrl : Option String
  apiName : Option String
  imageUrl : Option String
deriving DecidableEq

inductive LookupResult where
  | row (r : EndpointRow)
  | noRow
  | storeError (message : String)
deriving DecidableEq

/-- The request-scoped endpoint configuration the route attaches to the
request (src/routes/proxy.ts lines 58–63). -/
structure EndpointConfigJS where
  id : Nat
  priceMicrostx : Nat
  developerWallet : Option String
  originalUrl : Option String
deriving DecidableEq

/-- Outcome of the resolution prefix of the monetized route handler. -/
inductive ResolveStep where
  | respond (status : Nat) (errorMsg : String)
  | proceed (cfg : EndpointConfigJS)
deriving DecidableEq

/-- src/routes/proxy.ts lines 42–63: `if (error || !endpointData)` responds
404 `Endpoint not found`; otherwise the endpoint configuration is attached
and control continues into the payment gate.  No field of the returned row
is validated. -/
def proxyResolve : LookupResult → ResolveStep
  | .row r => .proceed ⟨r.id, r.priceMicrostx, r.walletAddress, r.originalUrl⟩
  | .noRow => .respond 404 "Endpoint not found"
  | .storeError _ => .respond 404 "Endpoint not found"

/-! ## The 402 challenge (src/routes/proxy.ts lines 74–107) -/

inductive NetworkEnv where
  | mainnet
  | testnet
deriving DecidableEq

/-- `process.env.NETWORK || 'testnet'` as passed to the middleware. -/
def networkName : NetworkEnv → String
  | .mainnet => "mainnet"
  | .testnet => "testnet"

/-- One entry of the `accepts` array of a 402 challenge body, restricted to
the fields the route passes into the middleware plus the `amountSTX` field
its wrapper appends (`none` until the wrapper runs). -/
structure AcceptEntry where
  scheme : String
  network : String
  amount : String
  payTo : Option String
  amountSTX : Option String
deriving DecidableEq

/-- Modelled from the spec: the x402-stacks `paymentMiddleware` challenge
mode is library code, not part of this repository.  Per spec §4.2/§8, for a
request with no proof it responds `402 Payment Required` with a body whose
`accepts` array has exactly one `PaymentRequirement` built from the values
the route passes it (amount string, payee, network). -/
def paymentMwChallenge (amount : String) (payTo : Option String) (network : String) :
    Nat × List AcceptEntry :=
  (402, [⟨"exact", network, amount, payTo, none⟩])

/-- src/routes/proxy.ts lines 91–101: the `res.json` wrapper adds the
human-readable `amountSTX` to every entry of `accepts` when the status is
402, and leaves other bodies alone. -/
def wrap402 (status : Nat) (accepts : List AcceptEntry) (priceSTX : String) :
    List AcceptEntry :=
  if status = 402 then accepts.map (fun a => { a with amountSTX := some priceSTX })
  else accepts

/-- The challenge response the route sends for a resolved endpoint when the
request carries no payment proof and no delegated credential: the
middleware's 402 body (amount = `endpoint.price_microstx.toString()`,
line 83) passed through the wrapper with `priceSTX` (line 78). -/
def challengeResponse (r : EndpointRow) (env : NetworkEnv) : Nat × List AcceptEntry :=
  let mw := paymentMwChallenge (natStr r.priceMicrostx) r.walletAddress (networkName env)
  (mw.1, wrap402 mw.1 mw.2 (fmtSTX r.priceMicrostx))

/-! ## Schema publisher (src/routes/x402scan.ts lines 22–136) -/

/-- x402scan.ts line 66: strip a leading `http://` or `https://` and one
trailing slash from the configured domain
(`replace(/^https?:\/\//, '').replace(/\/$/, '')`). -/
def stripSchemeChars : List Char → List Char
  | 'h' :: 't' :: 't' :: 'p' :: 's' :: ':' :: '/' :: '/' :: rest => rest
  | 'h' :: 't' :: 't' :: 'p' :: ':' :: '/' :: '/' :: rest => rest
  | l => l

def cleanDomain (s : String) : String :=
  let noScheme := stripSchemeChars s.data
  String.mk (if noScheme.getLast? = some '/' then noScheme.dropLast else noScheme)

/-- x402scan.ts line 67: the advertised canonical URL of the endpoint. -/
def monetizedUrlOf (domain username apiName path : String) : String :=
  "https://" ++ cleanDomain domain ++ "/" ++ username ++ "/" ++ apiName ++ "/" ++ path

/-- x402scan.ts line 70: the CAIP-2 rendering of the network used by the
published schema. -/
def networkCAIP2 : NetworkEnv → String
  | .mainnet => "stacks:1"
  | .testnet => "stacks:2147483648"

/-- The single entry of the published schema's `accepts` array
(x402scan.ts lines 89–125; the nested `outputSchema` object is constant
boilerplate no claim depends on and is omitted). -/
structure PublisherAccept where
  scheme : String
  network : String
  amount : String
  asset : String
  payTo : Option String
  maxTimeoutSeconds : Nat
  resource : String
  description : Option String
  mimeType : String
deriving DecidableEq

def publisherAccept (r : EndpointRow) (env : NetworkEnv)
    (domain username apiName path : String) : PublisherAccept where
  scheme := "exact"
  network := networkCAIP2 env
  amount := natStr r.priceMicrostx
  asset := "STX"
  payTo := r.walletAddress
  maxTimeoutSeconds := 300
  resource := monetizedUrlOf domain username apiName path
  description := r.endpointName
  mimeType := "application/json"

inductive PublisherOutcome where
  | respond (status : Nat) (errorMsg : String)
  | schema (status : Nat) (accept : PublisherAccept)
deriving DecidableEq

/-- The x402scan route: 404 on any lookup failure, otherwise always a 402
response carrying the schema.  The handler never inspects any payment
material — the function has no payment parameter because the source reads
none. -/
def publisherRoute (lk : LookupResult) (env : NetworkEnv)
    (domain username apiName path : String) : PublisherOutcome :=
  match lk with
  | .row r => .schema 402 (publisherAccept r env domain username apiName path)
  | .noRow => .respond 404 "Endpoint not found"
  | .storeError _ => .respond 404 "Endpoint not found"

/-! ## Forwarder header policy

The outgoing request's headers are those the repository's `onProxyReq`
handler sets from the caller's headers (headers are single-valued strings
here; Node's array-valued headers are not exercised by any claim). -/

/-- `key.toLowerCase()` on the header names (ASCII header names). -/
def toLowerStr (s : String) : String := String.mk (s.data.map Char.toLower)

/-- src/routes/proxy.ts lines 258–267 (`onProxyReq`): every caller header
is copied except `host`; `if (value)` skips empty values (falsy in JS). -/
def forwardedHeadersProxyTs (hs : List (String × String)) : List (String × String) :=
  hs.filter (fun kv => toLowerStr kv.1 != "host" && kv.2 != "")

/-- unnamed/part_002 lines 317–330 (`onProxyReq` of the second forwarder
variant): the skip list. -/
def headersToSkip : List String := ["host", "payment-signature", "x-private-key"]

/-- unnamed/part_002 lines 317–330: every caller header whose lower-cased
name is outside the skip list and whose value is a nonempty string is
forwarded. -/
def forwardedHeadersPart002 (hs : List (String × String)) : List (String × String) :=
  hs.filter (fun kv => !(headersToSkip.contains (toLowerStr kv.1)) && kv.2 != "")

/-! ## Target URL parsing (platform `new URL(...)`, proxy.ts lines 241–249) -/

structure UrlParts where
  protocol : String
  host : String
deriving DecidableEq

/-- Locate the first `://` separator. -/
def findSchemeSep : List Char → Option (List Char × List Char)
  | ':' :: '/' :: '/' :: rest => some ([], rest)
  | c :: rest => (findSchemeSep rest).map (fun pr => (c :: pr.1, pr.2))
  | [] => none

/-- Modelled platform behaviour of `new URL(s)` at the granularity the
route uses it: parsing succeeds iff the string has the shape
`scheme://host...` with nonempty scheme and host.  A null `original_url`
column (`new URL(null)`) is invalid. -/
def parseUrl : Option String → Option UrlParts
  | none => none
  | some s =>
    match findSchemeSep s.data with
    | none => none
    | some (scheme, rest) =>
      let host := rest.takeWhile (· != '/')
      if scheme = [] ∨ host = [] then none
      else some ⟨String.mk scheme, String.mk host⟩

/-! ## Call ledger (the `api_calls` table) -/

structure PaymentProof where
  payer : String
  transaction : String
  network : String
deriving DecidableEq

structure CallRecord where
  endpointId : Nat
  callerWallet : String
  txHash : String
  amountPaid : Nat
  statusCode : Option Nat
  latencyMs : Option Nat
deriving DecidableEq

abbrev Store := List CallRecord

/-- Insert under the unique constraint on `tx_hash`: a duplicate insert is
rejected by the store, leaving the rows unchanged (the client reports the
violation as an error value, which the route ignores). -/
def insertCall (s : Store) (r : CallRecord) : Store :=
  if s.any (fun x => x.txHash == r.txHash) then s else s ++ [r]

/-- Update keyed by `tx_hash` (proxy.ts lines 300–306). -/
def updateCall (s : Store) (tx : String) (status latency : Nat) : Store :=
  s.map (fun r =>
    if r.txHash == tx then { r with statusCode := some status, latencyMs := some latency }
    else r)

def findCall (s : Store) (tx : String) : Option CallRecord :=
  s.find? (fun r => r.txHash == tx)

/-! ## Payment-response envelope (proxy.ts lines 284–290) -/

def b64Alphabet : List Char :=
  "ABCDEFGHIJKLMNOPQRSTUVWXYZabcdefghijklmnopqrstuvwxyz0123456789+/".data

def b64Digit (n : Nat) : Char := b64Alphabet.getD n '='

/-- Standard base64 of a byte list, three bytes to four characters with
`=` padding. -/
def b64Chunks : List Nat → List Char
  | [] => []
  | [a] => [b64Digit (a / 4), b64Digit (a % 4 * 16), '=', '=']
  | [a, b] => [b64Digit (a / 4), b64Digit (a % 4 * 16 + b / 16), b64Digit (b % 16 * 4), '=']
  | a :: b :: c :: rest =>
    b64Digit (a / 4) :: b64Digit (a % 4 * 16 + b / 16) ::
      b64Digit (b % 16 * 4 + c / 64) :: b64Digit (c % 64) :: b64Chunks rest

/-- `Buffer.from(s).toString('base64')` for the ASCII envelope strings,
where UTF-8 bytes coincide with code points. -/
def b64 (s : String) : String := String.mk (b64Chunks (s.data.map Char.toNat))

/-- `JSON.stringify({success: true, transaction, payer, network})` in the
key order the source constructs. -/
def paymentEnvelope (p : PaymentProof) : String :=
  "\x7b\"success\":true,\"transaction\":\"" ++ p.transaction ++
    "\",\"payer\":\"" ++ p.payer ++ "\",\"network\":\"" ++ p.network ++ "\"\x7d"

/-! ## The forwarder as a sequential trace
(src/routes/proxy.ts lines 219–332: `handleProxiedRequest` with its
`onProxyReq`/`onProxyRes`/`onError` hooks) -/

inductive Event where
  | insertAttempt (rec : CallRecord)
  | forwardStart (host : String)
  | originStatus (status : Nat)
  | setHeader (name : String) (value : String)
  | updateAttempt (tx : String) (status : Nat) (latency : Nat)
  | logWarn (msg : String)
  | respond (status : Nat) (body : String)
deriving DecidableEq

inductive OriginOutcome where
  | responds (status : Nat)
  | unreachable
deriving DecidableEq

/-- proxy.ts lines 282–295: the header injection in `onProxyRes`.  Nothing
happens when the headers are already flushed (`!res.headersSent` guards the
block); if `setHeader` still throws (flush racing the check), the `catch`
logs a warning and the request continues. -/
def injectPaymentHeader (payment : Option PaymentProof)
    (headersSent headerThrows : Bool) : List Event :=
  match payment with
  | some p =>
    if headersSent then []
    else if headerThrows then [Event.logWarn "Could not set payment-response header"]
    else [Event.setHeader "payment-response" (b64 (paymentEnvelope p))]
  | none => []

/-- The handler, one request at a time.  Environment parameters model the
collaborators: `store` holds the current `api_calls` rows, `origin` is the
target API's behaviour, `latency` the measured round-trip time,
`insertFails`/`updateFails` make the respective best-effort store write
fail, `headersSent` says whether the response headers were already flushed
when the origin answered, and `headerThrows` makes the header injection
throw.  Returns the rows after the request and the ordered trace.  Source
order: the awaited ledger insert (lines 226–234, result ignored) — URL
parse with early 400 (lines 241–249) — proxying with `onProxyRes` (header
injection then fire-and-forget update, lines 277–310) or `onError` 502
(lines 312–318). -/
def handleProxiedRequest (payment : Option PaymentProof) (cfg : EndpointConfigJS)
    (store : Store) (origin : OriginOutcome) (latency : Nat)
    (insertFails updateFails headersSent headerThrows : Bool) : Store × List Event :=
  let inserted :=
    match payment with
    | some p =>
      let rec0 : CallRecord := ⟨cfg.id, p.payer, p.transaction, cfg.priceMicrostx, none, none⟩
      ((if insertFails then store else insertCall store rec0), [Event.insertAttempt rec0])
    | none => (store, [])
  match parseUrl cfg.originalUrl with
  | none => (inserted.1, inserted.2 ++ [.respond 400 "Invalid target URL"])
  | some u =>
    match origin with
    | .unreachable =>
      (inserted.1, inserted.2 ++
        [.forwardStart u.host, .respond 502 "Failed to proxy request to target API"])
    | .responds st =>
      let hdrEvents := injectPaymentHeader payment headersSent headerThrows
      let upd :=
        match payment with
        | some p =>
          if updateFails then
            (inserted.1, [Event.updateAttempt p.transaction st latency,
                          Event.logWarn "Error updating API call log"])
          else (updateCall inserted.1 p.transaction st latency,
                [Event.updateAttempt p.transaction st latency])
        | none => (inserted.1, [])
      (upd.1, inserted.2 ++ [.forwardStart u.host, .originStatus st] ++
        hdrEvents ++ upd.2 ++ [.respond st "origin response body"])

/-- Caller-visible effects: the response and its headers.  Log lines and
store traffic are server-side only. -/
def isVisible : Event → Bool
  | .respond _ _ => true
  | .setHeader _ _ => true
  | _ => false

def visibleEvents (l : List Event) : List Event := l.filter isVisible

def isInsertEvent : Event → Bool
  | .insertAttempt _ => true
  | _ => false

def isUpdateEvent : Event → Bool
  | .updateAttempt _ _ _ => true
  | _ => false

def isForwardEvent : Event → Bool
  | .forwardStart _ => true
  | _ => false

def isOriginEvent : Event → Bool
  | .originStatus _ => true
  | _ => false

def isHeaderEvent : Event → Bool
  | .setHeader _ _ => true
  | _ => false

def isRespondEvent : Event → Bool
  | .respond _ _ => true
  | _ => false

def isLogEvent : Event → Bool
  | .logWarn _ => true
  | _ => false

/-- Index of the first event matching `q`. -/
def findIdxOpt (q : Event → Bool) : List Event → Option Nat
  | [] => none
  | e :: es => if q e then some 0 else (findIdxOpt q es).map (· + 1)

/-- Number of events matching `q`. -/
def countEvents (q : Event → Bool) : List Event → Nat
  | [] => 0
  | e :: es => (if q e then 1 else 0) + countEvents q es

/-- Last event of a trace. -/
def lastEvent : List Event → Option Event
  | [] => none
  | [e] => some e
  | _ :: es => lastEvent es

/-- Happens-before over a trace: whenever an event matched by `q2` occurs,
an event matched by `q1` occurs strictly earlier. -/
def idxBefore (l : List Event) (q1 q2 : Event → Bool) : Bool :=
  match findIdxOpt q1 l, findIdxOpt q2 l with
  | some i, some j => decide (i < j)
  | _, none => true
  | none, some _ => false

/-! ### Lemmas about the decimal rendering -/

theorem digitChar_eq_zero_iff (d : Nat) : digitChar d = '0' ↔ d = 0 := by
  unfold digitChar
  split_ifs with h0 h1 h2 h3 h4 h5 h6 h7 h8 h9 <;> simp_all

theorem digitChar_ne_dot (d : Nat) : digitChar d ≠ '.' := by
  unfold digitChar
  split_ifs <;> decide

theorem natChars_ne_nil (n : Nat) : natChars n ≠ [] := by
  unfold natChars natCharsGo
  split <;> simp

/-- `dropWhile` over an append, first part entirely dropped. -/
theorem dropWhile_append_left {α : Type} (q : α → Bool) (l₁ l₂ : List α)
    (h : l₁.dropWhile q = []) : (l₁ ++ l₂).dropWhile q = l₂.dropWhile q := by
  induction l₁ with
  | nil => simp
  | cons a t ih =>
    cases ha : q a with
    | true =>
      simp only [List.cons_append, List.dropWhile_cons, ha] at h ⊢
      exact ih h
    | false => simp [List.dropWhile_cons, ha] at h

/-- `dropWhile` over an append, first part not entirely dropped. -/
theorem dropWhile_append_right {α : Type} (q : α → Bool) (l₁ l₂ : List α)
    (h : l₁.dropWhile q ≠ []) : (l₁ ++ l₂).dropWhile q = l₁.dropWhile q ++ l₂ := by
  induction l₁ with
  | nil => simp at h
  | cons a t ih =>
    cases ha : q a with
    | true =>
      simp only [List.cons_append, List.dropWhile_cons, ha] at h ⊢
      exact ih h
    | false => simp [List.dropWhile_cons, ha]

theorem head_dropWhile_not {α : Type} (q : α → Bool) :
    ∀ (l : List α) (c : α) (t : List α), l.dropWhile q = c :: t → q c = false := by
  intro l
  induction l with
  | nil => intro c t h; simp at h
  | cons a s ih =>
    intro c t h
    by_cases ha : q a
    · exact ih c t (by simpa [List.dropWhile_cons, ha] using h)
    · simp only [List.dropWhile_cons, ha] at h
      cases h
      simpa using ha

theorem mem_of_dropWhile_cons {α : Type} (q : α → Bool) :
    ∀ (l : List α) (c : α) (t : List α), l.dropWhile q = c :: t → c ∈ l := by
  intro l
  induction l with
  | nil => intro c t h; simp at h
  | cons a s ih =>
    intro c t h
    by_cases ha : q a
    · exact List.mem_cons_of_mem a (ih c t (by simpa [List.dropWhile_cons, ha] using h))
    · simp only [List.dropWhile_cons, ha] at h
      cases h
      exact List.mem_cons_self _ _

/-- Unfolding equation for `dropTrailingZeros` on a cons cell. -/
theorem dropTrailingZeros_cons (c : Char) (cs : List Char) :
    dropTrailingZeros (c :: cs) =
      match dropTrailingZeros cs with
      | [] => if c = '0' then [] else [c]
      | r => c :: r := rfl

/-- The spec-side trimming agrees with reverse/dropWhile/reverse. -/
theorem dropTrailingZeros_eq (l : List Char) :
    dropTrailingZeros l = (l.reverse.dropWhile (· == '0')).reverse := by
  induction l with
  | nil => simp [dropTrailingZeros]
  | cons c cs ih =>
    rw [dropTrailingZeros_cons, List.reverse_cons]
    cases hrec : dropTrailingZeros cs with
    | nil =>
      have hnil : cs.reverse.dropWhile (· == '0') = [] := by
        rw [ih] at hrec
        simpa using hrec
      rw [dropWhile_append_left _ _ _ hnil]
      by_cases hc : c = '0'
      · subst hc
        simp [List.dropWhile_cons]
      · have hb : (c == '0') = false := by simpa using hc
        simp [List.dropWhile_cons, hb, hc]
    | cons r rs =>
      have hne : cs.reverse.dropWhile (· == '0') ≠ [] := by
        intro hz
        rw [ih, hz] at hrec
        simp at hrec
      rw [dropWhile_append_right _ _ _ hne, List.reverse_append, ← ih, hrec]
      simp

theorem pad6_zero : pad6 0 = ['0', '0', '0', '0', '0', '0'] := by decide

/-- If every digit of `pad6 m` is `'0'` then `m % 10^6 = 0`; contrapositive
used to show the dropWhile stops inside the fraction. -/
theorem pad6_dropWhile_ne_nil {m : Nat} (hm : m < 1000000) (h : m ≠ 0) :
    (pad6 m).reverse.dropWhile (· == '0') ≠ [] := by
  intro hall
  have hsat : ∀ c ∈ (pad6 m).reverse, (c == '0') = true :=
    List.dropWhile_eq_nil_iff.mp hall
  have hdig : ∀ c ∈ pad6 m, c = '0' := by
    intro c hc
    have := hsat c (by simpa using hc)
    simpa using this
  have h1 : digitChar (m / 100000 % 10) = '0' := hdig _ (by simp [pad6])
  have h2 : digitChar (m / 10000 % 10) = '0' := hdig _ (by simp [pad6])
  have h3 : digitChar (m / 1000 % 10) = '0' := hdig _ (by simp [pad6])
  have h4 : digitChar (m / 100 % 10) = '0' := hdig _ (by simp [pad6])
  have h5 : digitChar (m / 10 % 10) = '0' := hdig _ (by simp [pad6])
  have h6 : digitChar (m % 10) = '0' := hdig _ (by simp [pad6])
  rw [digitChar_eq_zero_iff] at h1 h2 h3 h4 h5 h6
  omega

theorem pad6_getLast (m : Nat) : (pad6 m).getLast? = some (digitChar (m % 10)) := by
  simp [pad6]

/-- Every character of `pad6` is a digit character. -/
theorem pad6_mem_digit {m : Nat} {c : Char} (hc : c ∈ pad6 m) : ∃ d, c = digitChar d := by
  simp only [pad6, List.mem_cons, List.not_mem_nil, or_false] at hc
  rcases hc with h | h | h | h | h | h <;> exact ⟨_, h⟩

/-- Main refinement: the source's `toFixed(6).replace(/\.?0+$/,'')` pipeline
computes exactly the spec's "decimal string of `p / 1e6` trimmed of trailing
zeros". -/
theorem fmtSTX_eq_stxTrimmed (p : Nat) : fmtSTX p = stxTrimmed p := by
  have hm : p % 1000000 < 1000000 := Nat.mod_lt _ (by omega)
  unfold fmtSTX stxTrimmed toFixed6 stripPriceZeros
  by_cases h0 : p % 1000000 = 0
  · -- fraction is all zeros: the whole fraction and the dot are removed
    rw [h0, pad6_zero]
    have hdot : ('.' :: ['0','0','0','0','0','0']).getLast? = some '0' := by decide
    have hlast : (natChars (p / 1000000) ++ '.' :: ['0','0','0','0','0','0']).getLast? = some '0' := by
      rw [List.getLast?_append, hdot]
      rfl
    rw [if_pos hlast]
    have hrev : (natChars (p / 1000000) ++ '.' :: ['0','0','0','0','0','0']).reverse
        = ['0','0','0','0','0','0'] ++ '.' :: (natChars (p / 1000000)).reverse := by
      simp
    rw [hrev, dropWhile_append_left _ _ _ (by decide)]
    have hdw : (('.' :: (natChars (p / 1000000)).reverse).dropWhile (· == '0'))
        = '.' :: (natChars (p / 1000000)).reverse := by
      simp [List.dropWhile_cons]
    rw [hdw]
    simp only [List.reverse_cons, List.reverse_reverse]
    rw [List.getLast?_concat]
    simp [natStr, List.dropLast_concat]
  · -- fraction has a nonzero digit
    have hdot6 : ('.' :: pad6 (p % 1000000)).getLast? = some (digitChar (p % 1000000 % 10)) := rfl
    have hlast6 : (natChars (p / 1000000) ++ '.' :: pad6 (p % 1000000)).getLast? =
        some (digitChar (p % 1000000 % 10)) := by
      rw [List.getLast?_append, hdot6]
      rfl
    rw [if_neg h0]
    by_cases hd : p % 1000000 % 10 = 0
    · -- trailing zero: trimming fires and stops inside the fraction
      have htrig : (natChars (p / 1000000) ++ '.' :: pad6 (p % 1000000)).getLast? = some '0' := by
        rw [hlast6, hd]; rfl
      rw [if_pos htrig]
      have hne := pad6_dropWhile_ne_nil hm h0
      have hrev : (natChars (p / 1000000) ++ '.' :: pad6 (p % 1000000)).reverse
          = (pad6 (p % 1000000)).reverse ++ '.' :: (natChars (p / 1000000)).reverse := by
        simp
      rw [hrev, dropWhile_append_right _ _ _ hne]
      cases hdw : (pad6 (p % 1000000)).reverse.dropWhile (· == '0') with
      | nil => exact absurd hdw hne
      | cons x xs =>
        have hxd : ∃ d, x = digitChar d := by
          refine pad6_mem_digit (m := p % 1000000) (c := x) ?_
          have := mem_of_dropWhile_cons _ _ _ _ hdw
          simpa using this
        have hxdot : x ≠ '.' := by
          obtain ⟨d, rfl⟩ := hxd
          exact digitChar_ne_dot d
        have hglast : ((x :: xs) ++ '.' :: (natChars (p / 1000000)).reverse).reverse.getLast? ≠ some '.' := by
          rw [List.getLast?_reverse]
          simpa using hxdot
        rw [if_neg hglast]
        rw [List.reverse_append]
        simp only [List.reverse_cons, List.reverse_reverse]
        rw [dropTrailingZeros_eq, hdw]
        simp
    · -- no trailing zero at all: the string is unchanged on both sides
      have hnz : digitChar (p % 1000000 % 10) ≠ '0' := by
        rw [Ne, digitChar_eq_zero_iff]; exact hd
      rw [if_neg (by rw [hlast6]; simpa using hnz)]
      rw [dropTrailingZeros_eq]
      cases hrv : (pad6 (p % 1000000)).reverse with
      | nil => simp [pad6] at hrv
      | cons y ys =>
        have hy : y = digitChar (p % 1000000 % 10) := by
          have hh := pad6_getLast (p % 1000000)
          rw [List.getLast?_eq_head?_reverse, hrv] at hh
          simpa using hh
        have hdw : ((y :: ys).dropWhile (· == '0')) = y :: ys := by
          simp only [List.dropWhile_cons]
          rw [hy]
          simp [hnz]
        rw [hdw, ← hrv]
        simp

theorem fmtSTX_ne_empty (p : Nat) : fmtSTX p ≠ "" := by
  rw [fmtSTX_eq_stxTrimmed]
  unfold stxTrimmed
  have h1 := natChars_ne_nil (p / 1000000)
  split
  · simp only [natStr]
    intro h
    have := congrArg String.data h
    simp at this
    exact h1 this
  · intro h
    have := congrArg String.data h
    simp at this

/-! ## Claim theorems -/

/-- C5: for every priceMicroUnits value `p > 0` (within the range where the
JS double division is exact, see the embedding note on `toFixed6`), the
displayed STX amount equals the decimal string of `p / 1_000_000` trimmed
of trailing zeros; in particular `1_000_000 ↦ "1"`, `1_500_000 ↦ "1.5"`,
`1_000_001 ↦ "1.000001"`; and the formatting never produces an empty
string, so the `"0"` fall-back for an empty result holds vacuously. -/
theorem claim_C5_price_formatting (p : Nat) (hp : 0 < p) (hr : p ≤ 4 * 10 ^ 15) :
    fmtSTX p = stxTrimmed p ∧ fmtSTX p ≠ "" ∧
    fmtSTX 1000000 = "1" ∧ fmtSTX 1500000 = "1.5" ∧ fmtSTX 1000001 = "1.000001" :=
  ⟨fmtSTX_eq_stxTrimmed p, fmtSTX_ne_empty p, by decide, by decide, by decide⟩

theorem claim_C5_witness :
    0 < 1500000 ∧ 1500000 ≤ 4 * 10 ^ 15 ∧
    (fmtSTX 1500000 = stxTrimmed 1500000 ∧ fmtSTX 1500000 ≠ "" ∧
     fmtSTX 1000000 = "1" ∧ fmtSTX 1500000 = "1.5" ∧ fmtSTX 1000001 = "1.000001") :=
  ⟨by norm_num, by norm_num,
   claim_C5_price_formatting 1500000 (by norm_num) (by norm_num)⟩

/-- C3: for every resolved endpoint row and network environment, a request
with no payment proof and no delegated credential receives exactly HTTP 402
whose `accepts` array is one entry: `amount` is `priceMicroUnits` as a
decimal string, and the entry carries `amountSTX` equal to
`priceMicroUnits / 1_000_000` trimmed of trailing zeros. -/
theorem claim_C3_challenge_shape (r : EndpointRow) (env : NetworkEnv) :
    challengeResponse r env =
      (402, [⟨"exact", networkName env, natStr r.priceMicrostx, r.walletAddress,
              some (stxTrimmed r.priceMicrostx)⟩]) := by
  unfold challengeResponse paymentMwChallenge wrap402
  simp [fmtSTX_eq_stxTrimmed]

/-- C2 counterexample: a row that resolves (all join legs present and
active) but whose payee address and origin URL columns are null proceeds
into the payment gate instead of responding 404 — the route validates no
field of the returned row. -/
theorem claim_C2_counterexample :
    proxyResolve (.row ⟨7, none, "forecast", none, 500000, none, none, none, none⟩) =
      .proceed ⟨7, 500000, none, none⟩ ∧
    proxyResolve (.row ⟨7, none, "forecast", none, 500000, none, none, none, none⟩) ≠
      .respond 404 "Endpoint not found" := by
  decide

/-- C2 (amended): whenever the store lookup yields no row — a join leg
missing, the endpoint inactive (the query filters `active = true`), or the
lookup failing — the route responds HTTP 404 `Endpoint not found` and the
payment gate is never reached.  (An absent payee address or origin URL in a
returned row does not produce 404; see the counterexample.) -/
theorem claim_C2_resolution_404 (lk : LookupResult) (h : ∀ r, lk ≠ .row r) :
    proxyResolve lk = .respond 404 "Endpoint not found" ∧
    ∀ cfg, proxyResolve lk ≠ .proceed cfg := by
  cases lk with
  | row r => exact absurd rfl (h r)
  | noRow => exact ⟨rfl, fun cfg h2 => by simp [proxyResolve] at h2⟩
  | storeError m => exact ⟨rfl, fun cfg h2 => by simp [proxyResolve] at h2⟩

theorem claim_C2_witness :
    proxyResolve .noRow = .respond 404 "Endpoint not found" ∧
    ∀ cfg, proxyResolve .noRow ≠ .proceed cfg :=
  claim_C2_resolution_404 .noRow (fun r h => by cases h)

/-- C10: every store-lookup failure — no matching row, or a database or
network error (which the store client reports as an error value, never a
throw) — produces the identical HTTP 404 `Endpoint not found` response on
both the monetized route and the discovery route; the resolution step never
produces a 500, so a store outage is indistinguishable from a nonexistent
endpoint. -/
theorem claim_C10_outage_indistinguishable (lk : LookupResult)
    (h : ∀ r, lk ≠ .row r) (env : NetworkEnv)
    (domain username apiName path : String) :
    proxyResolve lk = .respond 404 "Endpoint not found" ∧
    publisherRoute lk env domain username apiName path =
      .respond 404 "Endpoint not found" := by
  cases lk with
  | row r => exact absurd rfl (h r)
  | noRow => exact ⟨rfl, rfl⟩
  | storeError m => exact ⟨rfl, rfl⟩

theorem claim_C10_witness :
    proxyResolve (.storeError "TypeError: fetch failed") =
      .respond 404 "Endpoint not found" ∧
    publisherRoute (.storeError "TypeError: fetch failed") .testnet
        "https://zedkr.up.railway.app" "alice" "weather" "forecast" =
      .respond 404 "Endpoint not found" :=
  claim_C10_outage_indistinguishable (.storeError "TypeError: fetch failed")
    (fun r h => by cases h) .testnet "https://zedkr.up.railway.app" "alice"
    "weather" "forecast"

/-- C4 counterexample: for a concrete resolvable endpoint on testnet, the
network field of the published requirement is absent from the network
fields of the challenge the payment gate enforces (CAIP-2 rendering versus
plain network name) — so the document is not produced by the same
requirement-construction logic. -/
theorem claim_C4_counterexample :
    (publisherAccept
        ⟨7, some "forecast", "forecast", some "https://api.example.com/v1",
         500000, some "SP2J6ZY48GV1EZ5V2V5RB9MP66SW86PYKKNRV9EJ7", none,
         some "weather", none⟩
        .testnet "https://zedkr.up.railway.app" "alice" "weather" "forecast").network ∉
      (challengeResponse
        ⟨7, some "forecast", "forecast", some "https://api.example.com/v1",
         500000, some "SP2J6ZY48GV1EZ5V2V5RB9MP66SW86PYKKNRV9EJ7", none,
         some "weather", none⟩ .testnet).2.map AcceptEntry.network := by
  decide

/-- C4 (amended): the schema publisher always responds HTTP 402 for a
resolvable endpoint regardless of payment, and advertises the same amount
(decimal `priceMicroUnits`) and the same payee as the payment gate's
challenge mode; but the requirement is constructed by an independent copy
of the logic, and its network field uses the CAIP-2 rendering, which
differs from the network name carried by the enforced challenge. -/
theorem claim_C4_publisher_terms (r : EndpointRow) (env : NetworkEnv)
    (domain username apiName path : String) :
    publisherRoute (.row r) env domain username apiName path =
      .schema 402 (publisherAccept r env domain username apiName path) ∧
    (publisherAccept r env domain username apiName path).amount =
      natStr r.priceMicrostx ∧
    (challengeResponse r env).2.map AcceptEntry.amount = [natStr r.priceMicrostx] ∧
    (publisherAccept r env domain username apiName path).payTo = r.walletAddress ∧
    (challengeResponse r env).2.map AcceptEntry.payTo = [r.walletAddress] ∧
    (challengeResponse r env).2.map AcceptEntry.network = [networkName env] ∧
    (publisherAccept r env domain username apiName path).network ≠ networkName env := by
  refine ⟨rfl, rfl, ?_, rfl, ?_, ?_, ?_⟩
  · simp [challengeResponse, paymentMwChallenge, wrap402]
  · simp [challengeResponse, paymentMwChallenge, wrap402]
  · simp [challengeResponse, paymentMwChallenge, wrap402]
  · cases env with
    | mainnet =>
      show "stacks:1" ≠ networkName .mainnet
      decide
    | testnet =>
      show "stacks:2147483648" ≠ networkName .testnet
      decide

theorem claim_C4_witness :
    publisherRoute
        (.row ⟨7, some "forecast", "forecast", some "https://api.example.com/v1",
              500000, some "SP2J6ZY48GV1EZ5V2V5RB9MP66SW86PYKKNRV9EJ7", none,
              some "weather", none⟩)
        .mainnet "https://zedkr.up.railway.app" "alice" "weather" "forecast" =
      .schema 402 (publisherAccept
        ⟨7, some "forecast", "forecast", some "https://api.example.com/v1",
         500000, some "SP2J6ZY48GV1EZ5V2V5RB9MP66SW86PYKKNRV9EJ7", none,
         some "weather", none⟩
        .mainnet "https://zedkr.up.railway.app" "alice" "weather" "forecast") ∧
    (publisherAccept
        ⟨7, some "forecast", "forecast", some "https://api.example.com/v1",
         500000, some "SP2J6ZY48GV1EZ5V2V5RB9MP66SW86PYKKNRV9EJ7", none,
         some "weather", none⟩
        .mainnet "https://zedkr.up.railway.app" "alice" "weather" "forecast").amount =
      natStr 500000 ∧
    (challengeResponse
        ⟨7, some "forecast", "forecast", some "https://api.example.com/v1",
         500000, some "SP2J6ZY48GV1EZ5V2V5RB9MP66SW86PYKKNRV9EJ7", none,
         some "weather", none⟩ .mainnet).2.map AcceptEntry.amount = [natStr 500000] ∧
    (publisherAccept
        ⟨7, some "forecast", "forecast", some "https://api.example.com/v1",
         500000, some "SP2J6ZY48GV1EZ5V2V5RB9MP66SW86PYKKNRV9EJ7", none,
         some "weather", none⟩
        .mainnet "https://zedkr.up.railway.app" "alice" "weather" "forecast").payTo =
      some "SP2J6ZY48GV1EZ5V2V5RB9MP66SW86PYKKNRV9EJ7" ∧
    (challengeResponse
        ⟨7, some "forecast", "forecast", some "https://api.example.com/v1",
         500000, some "SP2J6ZY48GV1EZ5V2V5RB9MP66SW86PYKKNRV9EJ7", none,
         some "weather", none⟩ .mainnet).2.map AcceptEntry.payTo =
      [some "SP2J6ZY48GV1EZ5V2V5RB9MP66SW86PYKKNRV9EJ7"] ∧
    (challengeResponse
        ⟨7, some "forecast", "forecast", some "https://api.example.com/v1",
         500000, some "SP2J6ZY48GV1EZ5V2V5RB9MP66SW86PYKKNRV9EJ7", none,
         some "weather", none⟩ .mainnet).2.map AcceptEntry.network = [networkName .mainnet] ∧
    (publisherAccept
        ⟨7, some "forecast", "forecast", some "https://api.example.com/v1",
         500000, some "SP2J6ZY48GV1EZ5V2V5RB9MP66SW86PYKKNRV9EJ7", none,
         some "weather", none⟩
        .mainnet "https://zedkr.up.railway.app" "alice" "weather" "forecast").network ≠
      networkName .mainnet :=
  claim_C4_publisher_terms _ .mainnet "https://zedkr.up.railway.app" "alice"
    "weather" "forecast"

/-- C1: the claim fails on src/routes/proxy.ts, whose `onProxyReq` skips
only `host` — a confirmed request carrying `payment-signature` and
`x-private-key` headers reaches the origin with both still present — while
the forwarder variant in unnamed/part_002 strips all three as the spec
demands, forwarding the remaining caller headers. -/
theorem claim_C1_credential_headers_forwarded :
    forwardedHeadersProxyTs
        [("host", "zedkr.up.railway.app"), ("payment-signature", "c2ln"),
         ("x-private-key", "ababab"), ("accept", "application/json")] =
      [("payment-signature", "c2ln"), ("x-private-key", "ababab"),
       ("accept", "application/json")] ∧
    forwardedHeadersPart002
        [("host", "zedkr.up.railway.app"), ("payment-signature", "c2ln"),
         ("x-private-key", "ababab"), ("accept", "application/json")] =
      [("accept", "application/json")] := by
  decide

/-- `find?` skips a prefix containing no match. -/
theorem find?_append_none {α : Type} (q : α → Bool) (l₁ l₂ : List α)
    (h : l₁.find? q = none) : (l₁ ++ l₂).find? q = l₂.find? q := by
  induction l₁ with
  | nil => simp
  | cons a t ih =>
    cases ha : q a with
    | true => simp [List.find?_cons, ha] at h
    | false =>
      simp only [List.find?_cons, ha] at h
      simp only [List.cons_append, List.find?_cons, ha]
      exact ih h

/-- A fresh transaction reference is not yet in the store. -/
theorem insertCall_fresh (store : Store) (r : CallRecord)
    (hfresh : store.all (fun x => x.txHash != r.txHash) = true) :
    insertCall store r = store ++ [r] := by
  unfold insertCall
  rw [if_neg]
  intro hany
  obtain ⟨x, hx, hq⟩ := List.any_eq_true.mp hany
  have := List.all_eq_true.mp hfresh x hx
  simp only [bne_iff_ne, ne_eq] at this
  exact this (by simpa using hq)

/-- Looking up a fresh insert finds it with its null fields intact. -/
theorem findCall_fresh_insert (store : Store) (r : CallRecord)
    (hfresh : store.all (fun x => x.txHash != r.txHash) = true) :
    findCall (insertCall store r) r.txHash = some r := by
  rw [insertCall_fresh store r hfresh]
  unfold findCall
  rw [find?_append_none]
  · simp [List.find?_cons]
  · rw [List.find?_eq_none]
    intro x hx
    have := List.all_eq_true.mp hfresh x hx
    simpa using this

/-- C6: for every confirmed payment, the ledger insert — with null
statusCode and latencyMs — is the first event of the handler, strictly
before forwarding begins; any ledger update happens only after the origin
status is known; and if the forward fails the store keeps the auditable
record with null statusCode (the update never ran). -/
theorem claim_C6_insert_before_forward (p : PaymentProof) (cfg : EndpointConfigJS)
    (store : Store) (origin : OriginOutcome) (lat : Nat) (hs ht : Bool)
    (hfresh : store.all (fun x => x.txHash != p.transaction) = true) :
    (handleProxiedRequest (some p) cfg store origin lat false false hs ht).2.head? =
      some (.insertAttempt ⟨cfg.id, p.payer, p.transaction, cfg.priceMicrostx, none, none⟩) ∧
    idxBefore (handleProxiedRequest (some p) cfg store origin lat false false hs ht).2
      isInsertEvent isForwardEvent = true ∧
    idxBefore (handleProxiedRequest (some p) cfg store origin lat false false hs ht).2
      isOriginEvent isUpdateEvent = true ∧
    (origin = .unreachable →
      countEvents isUpdateEvent
        (handleProxiedRequest (some p) cfg store origin lat false false hs ht).2 = 0 ∧
      findCall (handleProxiedRequest (some p) cfg store origin lat false false hs ht).1
          p.transaction =
        some ⟨cfg.id, p.payer, p.transaction, cfg.priceMicrostx, none, none⟩) := by
  have hfind := findCall_fresh_insert store
    ⟨cfg.id, p.payer, p.transaction, cfg.priceMicrostx, none, none⟩ hfresh
  unfold handleProxiedRequest
  cases hurl : parseUrl cfg.originalUrl with
  | none =>
    refine ⟨rfl, ?_, ?_, fun h1 => ⟨?_, hfind⟩⟩ <;>
      simp [idxBefore, findIdxOpt, countEvents, isInsertEvent, isForwardEvent,
        isOriginEvent, isUpdateEvent]
  | some u =>
    cases origin with
    | unreachable =>
      refine ⟨rfl, ?_, ?_, fun h1 => ⟨?_, hfind⟩⟩ <;>
        simp [idxBefore, findIdxOpt, countEvents, isInsertEvent, isForwardEvent,
          isOriginEvent, isUpdateEvent]
    | responds st =>
      refine ⟨rfl, ?_, ?_, fun h1 => by cases h1⟩ <;>
        cases hs <;> cases ht <;>
          simp [injectPaymentHeader, idxBefore, findIdxOpt, countEvents,
            isInsertEvent, isForwardEvent, isOriginEvent, isUpdateEvent]

theorem claim_C6_witness :
    (handleProxiedRequest (some ⟨"SPAYER1", "0xffaa", "testnet"⟩)
        ⟨7, 500000, some "SPDEV1", some "https://api.example.com/v1"⟩
        [] .unreachable 42 false false false false).2.head? =
      some (.insertAttempt ⟨7, "SPAYER1", "0xffaa", 500000, none, none⟩) ∧
    idxBefore (handleProxiedRequest (some ⟨"SPAYER1", "0xffaa", "testnet"⟩)
        ⟨7, 500000, some "SPDEV1", some "https://api.example.com/v1"⟩
        [] .unreachable 42 false false false false).2
      isInsertEvent isForwardEvent = true ∧
    idxBefore (handleProxiedRequest (some ⟨"SPAYER1", "0xffaa", "testnet"⟩)
        ⟨7, 500000, some "SPDEV1", some "https://api.example.com/v1"⟩
        [] .unreachable 42 false false false false).2
      isOriginEvent isUpdateEvent = true ∧
    (OriginOutcome.unreachable = .unreachable →
      countEvents isUpdateEvent
        (handleProxiedRequest (some ⟨"SPAYER1", "0xffaa", "testnet"⟩)
          ⟨7, 500000, some "SPDEV1", some "https://api.example.com/v1"⟩
          [] .unreachable 42 false false false false).2 = 0 ∧
      findCall (handleProxiedRequest (some ⟨"SPAYER1", "0xffaa", "testnet"⟩)
          ⟨7, 500000, some "SPDEV1", some "https://api.example.com/v1"⟩
          [] .unreachable 42 false false false false).1 "0xffaa" =
        some ⟨7, "SPAYER1", "0xffaa", 500000, none, none⟩) :=
  claim_C6_insert_before_forward ⟨"SPAYER1", "0xffaa", "testnet"⟩
    ⟨7, 500000, some "SPDEV1", some "https://api.example.com/v1"⟩
    [] .unreachable 42 false false (by decide)

/-- C7: ledger write failures (insert or update) are swallowed: the
caller-visible response and headers are identical whether or not either
write fails; neither write is ever attempted more than once; the trace is
independent of the pre-existing rows, so a request presenting an
already-logged `transactionRef` completes exactly like a fresh one (no
crash); and the duplicate insert leaves the store unchanged (no second
CallRecord). -/
theorem claim_C7_ledger_best_effort (p : PaymentProof) (cfg : EndpointConfigJS)
    (store : Store) (origin : OriginOutcome) (lat : Nat) (iF uF hs ht : Bool) :
    visibleEvents (handleProxiedRequest (some p) cfg store origin lat iF uF hs ht).2 =
      visibleEvents (handleProxiedRequest (some p) cfg store origin lat false false hs ht).2 ∧
    countEvents isInsertEvent
      (handleProxiedRequest (some p) cfg store origin lat iF uF hs ht).2 ≤ 1 ∧
    countEvents isUpdateEvent
      (handleProxiedRequest (some p) cfg store origin lat iF uF hs ht).2 ≤ 1 ∧
    (handleProxiedRequest (some p) cfg store origin lat iF uF hs ht).2 =
      (handleProxiedRequest (some p) cfg [] origin lat iF uF hs ht).2 ∧
    (store.any (fun x => x.txHash == p.transaction) = true →
      insertCall store ⟨cfg.id, p.payer, p.transaction, cfg.priceMicrostx, none, none⟩ =
        store) := by
  refine ⟨?_, ?_, ?_, ?_, fun hdup => by unfold insertCall; rw [if_pos hdup]⟩
  all_goals
    unfold handleProxiedRequest
    cases parseUrl cfg.originalUrl <;> try cases origin
  all_goals
    cases iF <;> cases uF <;> cases hs <;> cases ht <;>
      simp [injectPaymentHeader, visibleEvents, isVisible, countEvents,
        isInsertEvent, isUpdateEvent]

theorem claim_C7_witness :
    visibleEvents (handleProxiedRequest (some ⟨"SPAYER1", "0xffaa", "testnet"⟩)
        ⟨7, 500000, some "SPDEV1", some "https://api.example.com/v1"⟩
        [⟨7, "SPAYER1", "0xffaa", 500000, some 200, some 5⟩] (.responds 200) 42
        true true false false).2 =
      visibleEvents (handleProxiedRequest (some ⟨"SPAYER1", "0xffaa", "testnet"⟩)
        ⟨7, 500000, some "SPDEV1", some "https://api.example.com/v1"⟩
        [⟨7, "SPAYER1", "0xffaa", 500000, some 200, some 5⟩] (.responds 200) 42
        false false false false).2 ∧
    countEvents isInsertEvent (handleProxiedRequest (some ⟨"SPAYER1", "0xffaa", "testnet"⟩)
        ⟨7, 500000, some "SPDEV1", some "https://api.example.com/v1"⟩
        [⟨7, "SPAYER1", "0xffaa", 500000, some 200, some 5⟩] (.responds 200) 42
        true true false false).2 ≤ 1 ∧
    countEvents isUpdateEvent (handleProxiedRequest (some ⟨"SPAYER1", "0xffaa", "testnet"⟩)
        ⟨7, 500000, some "SPDEV1", some "https://api.example.com/v1"⟩
        [⟨7, "SPAYER1", "0xffaa", 500000, some 200, some 5⟩] (.responds 200) 42
        true true false false).2 ≤ 1 ∧
    (handleProxiedRequest (some ⟨"SPAYER1", "0xffaa", "testnet"⟩)
        ⟨7, 500000, some "SPDEV1", some "https://api.example.com/v1"⟩
        [⟨7, "SPAYER1", "0xffaa", 500000, some 200, some 5⟩] (.responds 200) 42
        true true false false).2 =
      (handleProxiedRequest (some ⟨"SPAYER1", "0xffaa", "testnet"⟩)
        ⟨7, 500000, some "SPDEV1", some "https://api.example.com/v1"⟩
        [] (.responds 200) 42 true true false false).2 ∧
    (([⟨7, "SPAYER1", "0xffaa", 500000, some 200, some 5⟩] : Store).any
        (fun x => x.txHash == "0xffaa") = true →
      insertCall [⟨7, "SPAYER1", "0xffaa", 500000, some 200, some 5⟩]
        ⟨7, "SPAYER1", "0xffaa", 500000, none, none⟩ =
        [⟨7, "SPAYER1", "0xffaa", 500000, some 200, some 5⟩]) :=
  claim_C7_ledger_best_effort ⟨"SPAYER1", "0xffaa", "testnet"⟩
    ⟨7, 500000, some "SPDEV1", some "https://api.example.com/v1"⟩
    [⟨7, "SPAYER1", "0xffaa", 500000, some 200, some 5⟩] (.responds 200) 42
    true true false false

/-- C8: when the origin URL fails to parse, the handler responds
`400 Invalid target URL` without any forward attempt; when the origin
connection fails, it responds `502` after exactly one forward attempt —
no automatic retry. -/
theorem claim_C8_forwarder_failure (payment : Option PaymentProof)
    (cfg : EndpointConfigJS) (store : Store) (origin : OriginOutcome)
    (lat : Nat) (iF uF hs ht : Bool) :
    (parseUrl cfg.originalUrl = none →
      countEvents isForwardEvent
        (handleProxiedRequest payment cfg store origin lat iF uF hs ht).2 = 0 ∧
      lastEvent (handleProxiedRequest payment cfg store origin lat iF uF hs ht).2 =
        some (.respond 400 "Invalid target URL")) ∧
    (parseUrl cfg.originalUrl ≠ none → origin = .unreachable →
      countEvents isForwardEvent
        (handleProxiedRequest payment cfg store origin lat iF uF hs ht).2 = 1 ∧
      lastEvent (handleProxiedRequest payment cfg store origin lat iF uF hs ht).2 =
        some (.respond 502 "Failed to proxy request to target API")) := by
  constructor
  · intro hurl
    unfold handleProxiedRequest
    rw [hurl]
    cases payment <;> cases iF <;>
      simp [countEvents, lastEvent, isForwardEvent]
  · intro hurl horigin
    subst horigin
    unfold handleProxiedRequest
    cases hu : parseUrl cfg.originalUrl with
    | none => exact absurd hu hurl
    | some u =>
      cases payment <;> cases iF <;>
        simp [countEvents, lastEvent, isForwardEvent]

theorem claim_C8_witness :
    (parseUrl (some "not a url") = none →
      countEvents isForwardEvent
        (handleProxiedRequest none ⟨7, 500000, some "SPDEV1", some "not a url"⟩
          [] .unreachable 42 false false false false).2 = 0 ∧
      lastEvent (handleProxiedRequest none ⟨7, 500000, some "SPDEV1", some "not a url"⟩
          [] .unreachable 42 false false false false).2 =
        some (.respond 400 "Invalid target URL")) ∧
    (parseUrl (some "not a url") ≠ none → OriginOutcome.unreachable = .unreachable →
      countEvents isForwardEvent
        (handleProxiedRequest none ⟨7, 500000, some "SPDEV1", some "not a url"⟩
          [] .unreachable 42 false false false false).2 = 1 ∧
      lastEvent (handleProxiedRequest none ⟨7, 500000, some "SPDEV1", some "not a url"⟩
          [] .unreachable 42 false false false false).2 =
        some (.respond 502 "Failed to proxy request to target API")) :=
  claim_C8_forwarder_failure none ⟨7, 500000, some "SPDEV1", some "not a url"⟩
    [] .unreachable 42 false false false false

/-- C9 counterexample: with the response headers already flushed, the
injection guard (`if (payment && !res.headersSent)`) skips the whole block
silently — the trace of a confirmed, successfully forwarded request
contains no header event and also no log event whatsoever, refuting the
claim that the flushed-headers no-op is logged (the request still
completes with the origin's response). -/
theorem claim_C9_counterexample :
    countEvents isHeaderEvent
      (handleProxiedRequest (some ⟨"SPAYER1", "0xffaa", "testnet"⟩)
        ⟨7, 500000, some "SPDEV1", some "https://api.example.com/v1"⟩
        [] (.responds 200) 42 false false true false).2 = 0 ∧
    countEvents isLogEvent
      (handleProxiedRequest (some ⟨"SPAYER1", "0xffaa", "testnet"⟩)
        ⟨7, 500000, some "SPDEV1", some "https://api.example.com/v1"⟩
        [] (.responds 200) 42 false false true false).2 = 0 ∧
    lastEvent (handleProxiedRequest (some ⟨"SPAYER1", "0xffaa", "testnet"⟩)
        ⟨7, 500000, some "SPDEV1", some "https://api.example.com/v1"⟩
        [] (.responds 200) 42 false false true false).2 =
      some (.respond 200 "origin response body") := by
  decide

/-- C9 (amended): for a forwarded response backed by a confirmed payment,
the `payment-response` header — the base64 of the JSON envelope
`{success, transaction, payer, network}` — is injected before the respond
event; if the headers were already flushed the injection is a silent no-op
(`injectPaymentHeader` emits nothing at all: no header event and no log
line) and the request still completes with the origin's response, never
crashing; only in the narrow race where the guarded `setHeader` itself
throws is the failure logged, and the request still completes. -/
theorem claim_C9_payment_response_header (p : PaymentProof)
    (cfg : EndpointConfigJS) (store : Store) (st lat : Nat) (iF uF : Bool)
    (hurl : parseUrl cfg.originalUrl ≠ none) :
    ((Event.setHeader "payment-response" (b64 (paymentEnvelope p))) ∈
      (handleProxiedRequest (some p) cfg store (.responds st) lat iF uF false false).2) ∧
    idxBefore (handleProxiedRequest (some p) cfg store (.responds st) lat iF uF
        false false).2 isHeaderEvent isRespondEvent = true ∧
    injectPaymentHeader (some p) true false = [] ∧
    injectPaymentHeader (some p) true true = [] ∧
    countEvents isHeaderEvent
      (handleProxiedRequest (some p) cfg store (.responds st) lat iF uF true false).2 = 0 ∧
    countEvents isLogEvent
      (handleProxiedRequest (some p) cfg store (.responds st) lat iF false true false).2 = 0 ∧
    lastEvent (handleProxiedRequest (some p) cfg store (.responds st) lat iF uF
        true false).2 = some (.respond st "origin response body") ∧
    (Event.logWarn "Could not set payment-response header" ∈
      (handleProxiedRequest (some p) cfg store (.responds st) lat iF uF false true).2) ∧
    lastEvent (handleProxiedRequest (some p) cfg store (.responds st) lat iF uF
        false true).2 = some (.respond st "origin response body") := by
  unfold handleProxiedRequest
  cases hu : parseUrl cfg.originalUrl with
  | none => exact absurd hu hurl
  | some u =>
    cases iF <;> cases uF <;>
      simp [injectPaymentHeader, idxBefore, findIdxOpt, countEvents, lastEvent,
        isHeaderEvent, isRespondEvent, isLogEvent]

theorem claim_C9_witness :
    ((Event.setHeader "payment-response"
        (b64 (paymentEnvelope ⟨"SPAYER1", "0xffaa", "testnet"⟩))) ∈
      (handleProxiedRequest (some ⟨"SPAYER1", "0xffaa", "testnet"⟩)
        ⟨7, 500000, some "SPDEV1", some "https://api.example.com/v1"⟩
        [] (.responds 200) 42 false false false false).2) ∧
    idxBefore (handleProxiedRequest (some ⟨"SPAYER1", "0xffaa", "testnet"⟩)
        ⟨7, 500000, some "SPDEV1", some "https://api.example.com/v1"⟩
        [] (.responds 200) 42 false false false false).2
      isHeaderEvent isRespondEvent = true ∧
    injectPaymentHeader (some ⟨"SPAYER1", "0xffaa", "testnet"⟩) true false = [] ∧
    injectPaymentHeader (some ⟨"SPAYER1", "0xffaa", "testnet"⟩) true true = [] ∧
    countEvents isHeaderEvent
      (handleProxiedRequest (some ⟨"SPAYER1", "0xffaa", "testnet"⟩)
        ⟨7, 500000, some "SPDEV1", some "https://api.example.com/v1"⟩
        [] (.responds 200) 42 false false true false).2 = 0 ∧
    countEvents isLogEvent
      (handleProxiedRequest (some ⟨"SPAYER1", "0xffaa", "testnet"⟩)
        ⟨7, 500000, some "SPDEV1", some "https://api.example.com/v1"⟩
        [] (.responds 200) 42 false false true false).2 = 0 ∧
    lastEvent (handleProxiedRequest (some ⟨"SPAYER1", "0xffaa", "testnet"⟩)
        ⟨7, 500000, some "SPDEV1", some "https://api.example.com/v1"⟩
        [] (.responds 200) 42 false false true false).2 =
      some (.respond 200 "origin response body") ∧
    (Event.logWarn "Could not set payment-response header" ∈
      (handleProxiedRequest (some ⟨"SPAYER1", "0xffaa", "testnet"⟩)
        ⟨7, 500000, some "SPDEV1", some "https://api.example.com/v1"⟩
        [] (.responds 200) 42 false false false true).2) ∧
    lastEvent (handleProxiedRequest (some ⟨"SPAYER1", "0xffaa", "testnet"⟩)
        ⟨7, 500000, some "SPDEV1", some "https://api.example.com/v1"⟩
        [] (.responds 200) 42 false false false true).2 =
      some (.respond 200 "origin response body") :=
  claim_C9_payment_response_header ⟨"SPAYER1", "0xffaa", "testnet"⟩
    ⟨7, 500000, some "SPDEV1", some "https://api.example.com/v1"⟩
    [] 200 42 false false (by decide)

end Zedkr
